import Mathlib

set_option autoImplicit false

namespace LeadGen

/-! Shallow embedding of the bulk-send / rate-limit workflow of
`src/streamlit_app.py` (Streamlit lead-generation dashboard).

Strings are Lean `String`s; Python `str.replace` is modelled on the
underlying character lists.  Dates are modelled as `Nat` day ordinals
ordered by `<`, matching Python `datetime.date` comparison.  The SMTP
network interaction (lines 110-114 of the source) is abstracted as an
oracle of type `Except String Unit`: `Except.ok ()` is a delivery that
raises nothing, `Except.error e` is a raised exception with text `e`. -/

/-- Core of Python `str.replace(old, new)` on character lists: scan left to
right; when `skip = 0` and the pattern is a prefix of the remaining input,
emit the replacement and consume the pattern (the current character now,
the remaining `pat.length - 1` characters via the skip counter); otherwise
copy one character.  For nonempty `pat` this is exactly Python's leftmost,
non-overlapping replace-all. -/
def replaceGo (pat rep : List Char) : Nat → List Char → List Char
  | _, [] => []
  | Nat.succ n, _ :: cs => replaceGo pat rep n cs
  | 0, c :: cs =>
    if pat.isPrefixOf (c :: cs) then
      rep ++ replaceGo pat rep (pat.length - 1) cs
    else
      c :: replaceGo pat rep 0 cs

/-- Python `str.replace(old, new)` for the patterns this program uses.  The
source only ever calls it with brace-delimited placeholders, which are
never empty, so the empty-pattern case (where Python interleaves the
replacement between characters) is unreachable and modelled as identity. -/
def strReplace (s old new : String) : String :=
  if old.data.isEmpty then s else String.mk (replaceGo old.data new.data 0 s.data)

/-- Embedding of personalize_template (src/streamlit_app.py lines 122-128):
fold over the key/value pairs of the lead record, in insertion order,
replacing the brace-delimited placeholder of each key by its value. -/
def personalize_template (template : String) (lead_data : List (String × String)) : String :=
  lead_data.foldl
    (fun personalized kv =>
      strReplace personalized ("\x7b\x7b" ++ kv.1 ++ "\x7d\x7d") kv.2)
    template

/-- Whether `pat` occurs as a contiguous substring of `s`. -/
def containsSub (s pat : List Char) : Bool :=
  match s with
  | [] => pat.isEmpty
  | c :: cs => pat.isPrefixOf (c :: cs) || containsSub cs pat

/-- Specification-side relation, written from the spec's words: the output
is the input with every literal occurrence of `pat` replaced by `rep`,
scanning left to right (occurrences are consumed, so they do not overlap,
and a character is copied unchanged only where no occurrence starts). -/
inductive ReplacesEvery (pat rep : List Char) : List Char → List Char → Prop where
  | nil : ReplacesEvery pat rep [] []
  | here : ∀ {s t : List Char}, ReplacesEvery pat rep s t →
      ReplacesEvery pat rep (pat ++ s) (rep ++ t)
  | copy : ∀ {c : Char} {s t : List Char}, pat.isPrefixOf (c :: s) = false →
      ReplacesEvery pat rep s t → ReplacesEvery pat rep (c :: s) (c :: t)

/-- Specification-side relation for the whole template engine: for each
field of the lead record, in order, every literal occurrence of its
brace-delimited placeholder is replaced by the field's value. -/
inductive PersonalizedBy : List (String × String) → String → String → Prop where
  | nil : ∀ t : String, PersonalizedBy [] t t
  | cons : ∀ (k v : String) (rest : List (String × String)) (t u w : String),
      ReplacesEvery ("\x7b\x7b" ++ k ++ "\x7d\x7d").data v.data t.data u.data →
      PersonalizedBy rest u w →
      PersonalizedBy ((k, v) :: rest) t w

/-- The SMTP configuration dictionary built in the Configuration tab
(src/streamlit_app.py lines 266-273). -/
structure SmtpConfig where
  email : String
  server : String
  port : Nat
  username : String
  password : String
  mode : String
  deriving DecidableEq

/-- The slice of Streamlit session state that send_email reads and writes
(src/streamlit_app.py lines 45-48 and 246): the daily counter, the date of
the last send, and the configured daily limit. -/
structure SessionSt where
  email_sent_today : Nat
  last_email_date : Nat
  email_limit : Nat
  deriving DecidableEq

/-- The MIME message built in the try block of send_email
(src/streamlit_app.py lines 103-108). -/
structure MimeMessage where
  to_addr : String
  sender : String
  subject : String
  body : String
  deriving DecidableEq

/-- Date-rollover step of send_email (src/streamlit_app.py lines 94-97):
when the current date is later than the stored one, zero the counter and
stamp the current date. -/
def rolloverQuota (current_date : Nat) (st : SessionSt) : SessionSt :=
  if current_date > st.last_email_date then
    { st with email_sent_today := 0, last_email_date := current_date }
  else st

/-- Embedding of send_email (src/streamlit_app.py lines 91-120).  Returns
the (success, message) pair, the updated session state, and the message
handed to the SMTP transport (none when the quota check aborts before the
try block).  The transport oracle stands for lines 103-114: ok means the
message was delivered without an exception; error e means some exception
with text e was raised while building or delivering, which the except
clause turns into a failure pair. -/
def send_email (recipient subject body : String) (smtp_config : SmtpConfig)
    (current_date : Nat) (transport : Except String Unit) (st : SessionSt) :
    (Bool × String) × SessionSt × Option MimeMessage :=
  let st1 := rolloverQuota current_date st
  if st1.email_sent_today ≥ st1.email_limit then
    ((false, "Daily email limit reached"), st1, none)
  else
    let msg : MimeMessage :=
      { to_addr := recipient, sender := smtp_config.email, subject := subject, body := body }
    match transport with
    | .ok _ =>
      let st2 := { st1 with email_sent_today := st1.email_sent_today + 1 }
      ((true, "Email sent to " ++ recipient ++ ". (" ++ toString st2.email_sent_today
          ++ "/" ++ toString st2.email_limit ++ " sent today)"), st2, some msg)
    | .error e =>
      ((false, "Failed to send email: " ++ e), st1, some msg)

/-- A per-lead outcome recorded by the send loop (the spec's SendResult). -/
structure SendResult where
  recipient : String
  succeeded : Bool
  message : String
  deriving DecidableEq

/-- A lead record as produced by the scraping simulation
(src/streamlit_app.py lines 350-359). -/
structure Lead where
  firstName : String
  lastName : String
  fullName : String
  position : String
  company : String
  location : String
  profileUrl : String
  email : String
  deriving DecidableEq

/-- The key/value pairs of a selected lead row as iterated by
personalize_template: the eight lead columns in insertion order, then the
Select checkbox column (always True for a selected row, stringified). -/
def Lead.row (l : Lead) : List (String × String) :=
  [("firstName", l.firstName), ("lastName", l.lastName), ("fullName", l.fullName),
   ("position", l.position), ("company", l.company), ("location", l.location),
   ("profileUrl", l.profileUrl), ("email", l.email), ("Select", "True")]

/-- The label of the test-mode radio option (src/streamlit_app.py line 480). -/
def testModeLabel : String := "Test Mode (send to yourself)"

/-- Recipient resolution (src/streamlit_app.py lines 519-523). -/
def recipientOf (cfg : SmtpConfig) (send_mode : String) (lead : Lead) : String :=
  if send_mode = testModeLabel then cfg.email else lead.email

/-- Subject resolution (src/streamlit_app.py lines 515 and 519-521):
personalize, then in test mode add the TEST marker and the real intended
recipient's address. -/
def subjectOf (send_mode email_subject : String) (lead : Lead) : String :=
  let personalized_subject := personalize_template email_subject lead.row
  if send_mode = testModeLabel then
    "[TEST] " ++ personalized_subject ++ " (to: " ++ lead.email ++ ")"
  else personalized_subject

/-- The message the loop iteration for a given lead hands to send_email. -/
def attemptOf (cfg : SmtpConfig) (send_mode email_subject email_template : String)
    (lead : Lead) : MimeMessage :=
  { to_addr := recipientOf cfg send_mode lead,
    sender := cfg.email,
    subject := subjectOf send_mode email_subject lead,
    body := personalize_template email_template lead.row }

/-- Accumulated state of the send loop (src/streamlit_app.py lines 505-552):
the two counters, the session quota state, the recorded per-lead outcomes,
and the messages actually handed to the SMTP transport. -/
structure BatchSt where
  success_count : Nat
  failure_count : Nat
  session : SessionSt
  results : List SendResult
  attempts : List MimeMessage
  deriving DecidableEq

/-- Embedding of the per-lead send loop (src/streamlit_app.py lines
509-552).  The index i numbers the iterations; dateAt i is the value of
datetime.now().date() at iteration i, and transport i the SMTP outcome of
iteration i. -/
def sendLoop (cfg : SmtpConfig) (send_mode email_subject email_template : String)
    (dateAt : Nat → Nat) (transport : Nat → Except String Unit) :
    Nat → List Lead → BatchSt → BatchSt
  | _, [], st => st
  | i, lead :: rest, st =>
    let personalized_body := personalize_template email_template lead.row
    let recipient := recipientOf cfg send_mode lead
    let personalized_subject := subjectOf send_mode email_subject lead
    let out := send_email recipient personalized_subject personalized_body cfg
      (dateAt i) (transport i) st.session
    let st' : BatchSt :=
      { success_count := if out.1.1 then st.success_count + 1 else st.success_count,
        failure_count := if out.1.1 then st.failure_count else st.failure_count + 1,
        session := out.2.1,
        results := st.results ++ [⟨recipient, out.1.1, out.1.2⟩],
        attempts := st.attempts ++ out.2.2.toList }
    sendLoop cfg send_mode email_subject email_template dateAt transport (i + 1) rest st'

/-- Embedding of one click of the send button (src/streamlit_app.py lines
494-552): counters start at zero and the loop runs over the selected leads. -/
def runBatch (cfg : SmtpConfig) (send_mode email_subject email_template : String)
    (dateAt : Nat → Nat) (transport : Nat → Except String Unit)
    (leads : List Lead) (session0 : SessionSt) : BatchSt :=
  sendLoop cfg send_mode email_subject email_template dateAt transport 0 leads
    { success_count := 0, failure_count := 0, session := session0,
      results := [], attempts := [] }

/-- Whether the transport oracle reports a delivery without an exception. -/
def exOk (t : Except String Unit) : Bool :=
  match t with
  | .ok _ => true
  | .error _ => false

/-- Number of exception-free transport outcomes among iterations
i, i+1, ..., i+n-1. -/
def okCount (transport : Nat → Except String Unit) : Nat → Nat → Nat
  | _, 0 => 0
  | i, Nat.succ n => (if exOk (transport i) then 1 else 0) + okCount transport (i + 1) n

/-- Fixture SMTP configuration used by the concrete witnesses. -/
def cfgX : SmtpConfig :=
  { email := "me@x.com", server := "smtp.x.com", port := 587,
    username := "me", password := "pw", mode := "Immediate Send" }

/-- Fixture lead used by the concrete witnesses. -/
def leadJane : Lead :=
  { firstName := "Jane", lastName := "Doe", fullName := "Jane Doe",
    position := "CEO", company := "Acme", location := "NY",
    profileUrl := "u1", email := "jane@acme.com" }

/-- Fixture lead used by the concrete witnesses. -/
def leadBob : Lead :=
  { firstName := "Bob", lastName := "Roe", fullName := "Bob Roe",
    position := "CTO", company := "Beta", location := "SF",
    profileUrl := "u2", email := "bob@beta.com" }

/-- Fixture lead used by the concrete witnesses. -/
def leadAmy : Lead :=
  { firstName := "Amy", lastName := "Lee", fullName := "Amy Lee",
    position := "CFO", company := "Corp", location := "LA",
    profileUrl := "u3", email := "amy@corp.com" }

/-- A skip counter of `n` is the same as first dropping `n` characters. -/
theorem replaceGo_skip (pat rep : List Char) :
    ∀ (n : Nat) (s : List Char), replaceGo pat rep n s = replaceGo pat rep 0 (List.drop n s) := by
  intro n
  induction n with
  | zero => intro s; rfl
  | succ n ih =>
    intro s
    cases s with
    | nil => simp [replaceGo]
    | cons c cs => simpa [replaceGo] using ih cs

theorem isPrefixOf_append (pat t : List Char) : pat.isPrefixOf (pat ++ t) = true := by
  induction pat with
  | nil => simp [List.isPrefixOf]
  | cons p ps ih => simp [List.isPrefixOf, ih]

theorem isPrefixOf_ex {pat s : List Char} (h : pat.isPrefixOf s = true) :
    ∃ t, s = pat ++ t := by
  induction pat generalizing s with
  | nil => exact ⟨s, rfl⟩
  | cons p ps ih =>
    cases s with
    | nil => simp [List.isPrefixOf] at h
    | cons c cs =>
      simp only [List.isPrefixOf, Bool.and_eq_true, beq_iff_eq] at h
      obtain ⟨t, rfl⟩ := ih h.2
      exact ⟨t, by rw [h.1]; rfl⟩

/-- Replacing at a match: the pattern at the head is consumed and replaced. -/
theorem replaceGo_append_self (pat rep t : List Char) (hpat : pat ≠ []) :
    replaceGo pat rep 0 (pat ++ t) = rep ++ replaceGo pat rep 0 t := by
  cases pat with
  | nil => exact absurd rfl hpat
  | cons p ps =>
    show replaceGo (p :: ps) rep 0 (p :: (ps ++ t)) = _
    rw [replaceGo]
    rw [show (p :: (ps ++ t)) = (p :: ps) ++ t from rfl, isPrefixOf_append]
    simp only [if_pos]
    rw [replaceGo_skip]
    simp [List.drop_left]

/-- If the pattern does not occur in the input, replacement is the identity. -/
theorem replaceGo_of_not_contains (pat rep : List Char) :
    ∀ s : List Char, containsSub s pat = false → replaceGo pat rep 0 s = s := by
  intro s
  induction s with
  | nil => intro _; rfl
  | cons c cs ih =>
    intro h
    simp only [containsSub, Bool.or_eq_false_iff] at h
    rw [replaceGo, if_neg (by simp [h.1]), ih h.2]

/-- The replace-all scan satisfies the replace-every-occurrence spec. -/
theorem replacesEvery_replaceGo (pat rep : List Char) (hpat : pat ≠ []) :
    ∀ s : List Char, ReplacesEvery pat rep s (replaceGo pat rep 0 s) := by
  have H : ∀ (n : Nat) (s : List Char), s.length ≤ n →
      ReplacesEvery pat rep s (replaceGo pat rep 0 s) := by
    intro n
    induction n with
    | zero =>
      intro s hs
      have : s = [] := List.length_eq_zero.mp (Nat.le_zero.mp hs)
      subst this
      exact .nil
    | succ n ih =>
      intro s hs
      cases hp : pat.isPrefixOf s with
      | true =>
        obtain ⟨t, rfl⟩ := isPrefixOf_ex hp
        rw [replaceGo_append_self pat rep t hpat]
        refine .here (ih t ?_)
        have h1 : 1 ≤ pat.length := Nat.one_le_iff_ne_zero.mpr
          (fun h => hpat (List.length_eq_zero.mp h))
        have := List.length_append pat t
        omega
      | false =>
        cases s with
        | nil => exact .nil
        | cons c cs =>
          rw [replaceGo, if_neg (by simp [hp])]
          refine .copy hp (ih cs ?_)
          simpa using Nat.le_of_succ_le_succ hs
  exact fun s => H s.length s (Nat.le_refl _)

theorem placeholder_data_ne_nil (k : String) :
    ("\x7b\x7b" ++ k ++ "\x7d\x7d").data ≠ [] := by
  rw [String.data_append, String.data_append]
  intro h
  have := congrArg List.length h
  simp [String.data_append] at this

theorem strReplace_data (s old new : String) (h : old.data ≠ []) :
    (strReplace s old new).data = replaceGo old.data new.data 0 s.data := by
  rw [strReplace, if_neg (by simpa [List.isEmpty_iff] using h)]

/-- One fold step of the template engine satisfies the per-field spec. -/
theorem replacesEvery_strReplace (t k v : String) :
    ReplacesEvery ("\x7b\x7b" ++ k ++ "\x7d\x7d").data v.data t.data
      (strReplace t ("\x7b\x7b" ++ k ++ "\x7d\x7d") v).data := by
  rw [strReplace_data _ _ _ (placeholder_data_ne_nil k)]
  exact replacesEvery_replaceGo _ _ (placeholder_data_ne_nil k) t.data

theorem personalizedBy_personalize_template :
    ∀ (lead_data : List (String × String)) (template : String),
      PersonalizedBy lead_data template (personalize_template template lead_data) := by
  intro lead_data
  induction lead_data with
  | nil => intro template; exact .nil template
  | cons kv rest ih =>
    intro template
    obtain ⟨k, v⟩ := kv
    exact .cons k v rest template _ _ (replacesEvery_strReplace template k v) (ih _)

/-- If the pattern does not occur in the string, strReplace is the identity. -/
theorem strReplace_of_not_contains (s old new : String)
    (h : containsSub s.data old.data = false) : strReplace s old new = s := by
  rw [strReplace]
  cases he : old.data.isEmpty with
  | true => simp
  | false =>
    have : replaceGo old.data new.data 0 s.data = s.data :=
      replaceGo_of_not_contains old.data new.data s.data h
    simp [this]

theorem personalize_template_of_no_match :
    ∀ (lead_data : List (String × String)) (template : String),
      (∀ kv ∈ lead_data,
        containsSub template.data ("\x7b\x7b" ++ kv.1 ++ "\x7d\x7d").data = false) →
      personalize_template template lead_data = template := by
  intro lead_data
  induction lead_data with
  | nil => intro template _; rfl
  | cons kv rest ih =>
    intro template h
    show personalize_template
      (strReplace template ("\x7b\x7b" ++ kv.1 ++ "\x7d\x7d") kv.2) rest = template
    rw [strReplace_of_not_contains template _ kv.2 (h kv (List.mem_cons_self kv rest))]
    exact ih template (fun kv' hkv' => h kv' (List.mem_cons_of_mem kv hkv'))

theorem rolloverQuota_of_not_later (d : Nat) (st : SessionSt)
    (h : ¬ d > st.last_email_date) : rolloverQuota d st = st := by
  simp [rolloverQuota, h]

theorem rolloverQuota_email_limit (d : Nat) (st : SessionSt) :
    (rolloverQuota d st).email_limit = st.email_limit := by
  rw [rolloverQuota]
  split <;> rfl

theorem send_email_quota_exceeded (recipient subject body : String) (cfg : SmtpConfig)
    (d : Nat) (tr : Except String Unit) (st : SessionSt)
    (h : (rolloverQuota d st).email_sent_today ≥ (rolloverQuota d st).email_limit) :
    send_email recipient subject body cfg d tr st =
      ((false, "Daily email limit reached"), rolloverQuota d st, none) := by
  simp [send_email, h]

theorem send_email_transport_ok (recipient subject body : String) (cfg : SmtpConfig)
    (d : Nat) (st : SessionSt)
    (h : ¬ (rolloverQuota d st).email_sent_today ≥ (rolloverQuota d st).email_limit) :
    send_email recipient subject body cfg d (Except.ok ()) st =
      ((true, "Email sent to " ++ recipient ++ ". ("
          ++ toString ((rolloverQuota d st).email_sent_today + 1)
          ++ "/" ++ toString (rolloverQuota d st).email_limit ++ " sent today)"),
        { rolloverQuota d st with
            email_sent_today := (rolloverQuota d st).email_sent_today + 1 },
        some ⟨recipient, cfg.email, subject, body⟩) := by
  simp [send_email, h]

theorem send_email_transport_error (recipient subject body : String) (cfg : SmtpConfig)
    (d : Nat) (e : String) (st : SessionSt)
    (h : ¬ (rolloverQuota d st).email_sent_today ≥ (rolloverQuota d st).email_limit) :
    send_email recipient subject body cfg d (Except.error e) st =
      ((false, "Failed to send email: " ++ e), rolloverQuota d st,
        some ⟨recipient, cfg.email, subject, body⟩) := by
  simp [send_email, h]

/-- C4: starting from a state with sentCount at most dailyLimit, a call to
send_email leaves sentCount at most dailyLimit: the counter is incremented
only after the check that it is strictly below the limit. -/
theorem sentCount_le_limit_preserved (recipient subject body : String) (cfg : SmtpConfig)
    (d : Nat) (tr : Except String Unit) (st : SessionSt)
    (h : st.email_sent_today ≤ st.email_limit) :
    (send_email recipient subject body cfg d tr st).2.1.email_sent_today ≤
      (send_email recipient subject body cfg d tr st).2.1.email_limit := by
  have hle : (rolloverQuota d st).email_sent_today ≤ (rolloverQuota d st).email_limit := by
    rw [rolloverQuota]
    split
    · exact Nat.zero_le _
    · exact h
  by_cases hq : (rolloverQuota d st).email_sent_today ≥ (rolloverQuota d st).email_limit
  · rw [send_email_quota_exceeded recipient subject body cfg d tr st hq]
    exact hle
  · cases tr with
    | ok u =>
      rw [send_email_transport_ok recipient subject body cfg d st hq]
      simpa using Nat.lt_of_not_ge hq
    | error e =>
      rw [send_email_transport_error recipient subject body cfg d e st hq]
      exact hle

/-- C4 witness at a concrete input. -/
theorem sentCount_le_limit_preserved_witness :
    (SessionSt.mk 1 10 2).email_sent_today ≤ (SessionSt.mk 1 10 2).email_limit ∧
    (send_email "r@a.com" "S" "B" cfgX 10 (Except.ok ()) (SessionSt.mk 1 10 2)).2.1.email_sent_today ≤
      (send_email "r@a.com" "S" "B" cfgX 10 (Except.ok ()) (SessionSt.mk 1 10 2)).2.1.email_limit :=
  ⟨by decide,
   sentCount_le_limit_preserved "r@a.com" "S" "B" cfgX 10 (Except.ok ())
     (SessionSt.mk 1 10 2) (by decide)⟩

/-- C9: send_email is failure-atomic on the quota counter: the state after
the call is the post-rollover state, incremented by one exactly when the
call reports success, and untouched on every failure path (quota abort or
transport exception). -/
theorem send_email_failure_atomic (recipient subject body : String) (cfg : SmtpConfig)
    (d : Nat) (tr : Except String Unit) (st : SessionSt) :
    (send_email recipient subject body cfg d tr st).2.1 =
      (if (send_email recipient subject body cfg d tr st).1.1 then
        { rolloverQuota d st with
            email_sent_today := (rolloverQuota d st).email_sent_today + 1 }
       else rolloverQuota d st) := by
  by_cases hq : (rolloverQuota d st).email_sent_today ≥ (rolloverQuota d st).email_limit
  · rw [send_email_quota_exceeded recipient subject body cfg d tr st hq]
    rfl
  · cases tr with
    | ok u => rw [send_email_transport_ok recipient subject body cfg d st hq]; rfl
    | error e => rw [send_email_transport_error recipient subject body cfg d e st hq]; rfl

/-- C10: an exception raised while building or delivering the message never
propagates out of send_email: the call still returns a (success, message)
pair, with success false and the message either the quota diagnostic (when
the limit check aborts before the try block) or the caught exception's
diagnostic text. -/
theorem send_email_no_propagation (recipient subject body : String) (cfg : SmtpConfig)
    (d : Nat) (e : String) (st : SessionSt) :
    (send_email recipient subject body cfg d (Except.error e) st).1.1 = false ∧
    ((send_email recipient subject body cfg d (Except.error e) st).1.2 =
        "Daily email limit reached" ∨
     (send_email recipient subject body cfg d (Except.error e) st).1.2 =
        "Failed to send email: " ++ e) := by
  by_cases hq : (rolloverQuota d st).email_sent_today ≥ (rolloverQuota d st).email_limit
  · rw [send_email_quota_exceeded recipient subject body cfg d _ st hq]
    exact ⟨rfl, Or.inl rfl⟩
  · rw [send_email_transport_error recipient subject body cfg d e st hq]
    exact ⟨rfl, Or.inr rfl⟩

/-- C3 counterexample: the claim says the counter resets whenever the
current date differs from the stored date, and that with the stored date
prior and the counter at the limit the first send succeeds.  With a
current date 4 earlier than the stored date 5 (which differs), the code
performs no reset and the send fails; and with a prior stored date but a
daily limit of 0 the send also fails after the reset. -/
theorem quota_rollover_differs_counterexample :
    ((4 : Nat) ≠ 5) ∧
    (send_email "r@a.com" "S" "B" cfgX 4 (Except.ok ()) (SessionSt.mk 1 5 1)).1.1 = false ∧
    (send_email "r@a.com" "S" "B" cfgX 4 (Except.ok ()) (SessionSt.mk 1 5 1)).2.1.email_sent_today = 1 ∧
    ((5 : Nat) < 6) ∧
    (send_email "r@a.com" "S" "B" cfgX 6 (Except.ok ()) (SessionSt.mk 0 5 0)).1.1 = false := by
  decide

/-- C3 amended: the counter resets to 0 whenever the current date is later
than the stored dateStamp; with dateStamp a prior date, sentCount equal to
a positive dailyLimit, and a transport that raises nothing, the first send
of the new day resets the quota before the limit check and succeeds. -/
theorem quota_rollover_amended (recipient subject body : String) (cfg : SmtpConfig)
    (d : Nat) (st : SessionSt)
    (hprior : st.last_email_date < d)
    (_hfull : st.email_sent_today = st.email_limit)
    (hpos : 0 < st.email_limit) :
    (rolloverQuota d st).email_sent_today = 0 ∧
    (rolloverQuota d st).last_email_date = d ∧
    (send_email recipient subject body cfg d (Except.ok ()) st).1.1 = true ∧
    (send_email recipient subject body cfg d (Except.ok ()) st).2.1.email_sent_today = 1 := by
  have hroll : rolloverQuota d st =
      { st with email_sent_today := 0, last_email_date := d } := by
    simp [rolloverQuota, hprior]
  have hq : ¬ (rolloverQuota d st).email_sent_today ≥ (rolloverQuota d st).email_limit := by
    rw [hroll]
    simp only [ge_iff_le, Nat.le_zero, not_imp_not]
    omega
  refine ⟨by rw [hroll], by rw [hroll], ?_, ?_⟩
  · rw [send_email_transport_ok recipient subject body cfg d st hq]
  · rw [send_email_transport_ok recipient subject body cfg d st hq]
    simp [hroll]

/-- C3 amended witness at a concrete input. -/
theorem quota_rollover_amended_witness :
    (SessionSt.mk 3 5 3).last_email_date < 6 ∧
    (SessionSt.mk 3 5 3).email_sent_today = (SessionSt.mk 3 5 3).email_limit ∧
    0 < (SessionSt.mk 3 5 3).email_limit ∧
    ((rolloverQuota 6 (SessionSt.mk 3 5 3)).email_sent_today = 0 ∧
     (rolloverQuota 6 (SessionSt.mk 3 5 3)).last_email_date = 6 ∧
     (send_email "r@a.com" "S" "B" cfgX 6 (Except.ok ()) (SessionSt.mk 3 5 3)).1.1 = true ∧
     (send_email "r@a.com" "S" "B" cfgX 6 (Except.ok ()) (SessionSt.mk 3 5 3)).2.1.email_sent_today = 1) :=
  ⟨by decide, by decide, by decide,
   quota_rollover_amended "r@a.com" "S" "B" cfgX 6 (SessionSt.mk 3 5 3)
     (by decide) (by decide) (by decide)⟩

/-- When the quota is already exhausted and the date does not advance, every
iteration of the send loop takes the quota-abort branch: no transport call,
no success, one failed record per lead, session untouched. -/
theorem sendLoop_quota_exhausted (cfg : SmtpConfig)
    (send_mode email_subject email_template : String)
    (dateAt : Nat → Nat) (transport : Nat → Except String Unit) :
    ∀ (leads : List Lead) (i : Nat) (st : BatchSt),
      (∀ j, j < leads.length → dateAt (i + j) = st.session.last_email_date) →
      st.session.email_sent_today ≥ st.session.email_limit →
      sendLoop cfg send_mode email_subject email_template dateAt transport i leads st =
        { success_count := st.success_count,
          failure_count := st.failure_count + leads.length,
          session := st.session,
          results := st.results ++ leads.map
            (fun l => ⟨recipientOf cfg send_mode l, false, "Daily email limit reached"⟩),
          attempts := st.attempts } := by
  intro leads
  induction leads with
  | nil => intro i st _ _; simp [sendLoop]
  | cons lead rest ih =>
    intro i st hdate hq
    have hd0 : dateAt i = st.session.last_email_date := by
      simpa using hdate 0 (by simp)
    have hroll : rolloverQuota (dateAt i) st.session = st.session :=
      rolloverQuota_of_not_later _ _ (by rw [hd0]; exact Nat.lt_irrefl _)
    have hout : send_email (recipientOf cfg send_mode lead)
        (subjectOf send_mode email_subject lead)
        (personalize_template email_template lead.row) cfg
        (dateAt i) (transport i) st.session =
        ((false, "Daily email limit reached"), st.session, none) := by
      rw [send_email_quota_exceeded _ _ _ _ _ _ _ (by rw [hroll]; exact hq), hroll]
    rw [sendLoop]
    simp only [hout]
    rw [ih (i + 1)]
    · simp only [Bool.false_eq_true, if_false, Option.toList_none, List.append_nil,
        List.map_cons, List.length_cons, List.append_assoc, List.singleton_append,
        BatchSt.mk.injEq, and_true, true_and, eq_self_iff_true]
      omega
    · intro j hj
      have : i + 1 + j = i + (j + 1) := by omega
      rw [this]
      simpa using hdate (j + 1) (by simpa using Nat.succ_lt_succ hj)
    · simpa using hq

/-- C1: for a batch started with the counter at or over the daily limit on
the same date, no message reaches the transport, the summary counts zero
successes, and every attempted lead is recorded as failed with the
quota-exceeded diagnostic. -/
theorem quota_exhausted_batch_sends_nothing (cfg : SmtpConfig)
    (send_mode email_subject email_template : String)
    (dateAt : Nat → Nat) (transport : Nat → Except String Unit)
    (leads : List Lead) (session0 : SessionSt)
    (hdate : ∀ j, j < leads.length → dateAt j = session0.last_email_date)
    (hq : session0.email_sent_today ≥ session0.email_limit) :
    (runBatch cfg send_mode email_subject email_template dateAt transport leads session0).attempts
        = [] ∧
    (runBatch cfg send_mode email_subject email_template dateAt transport leads session0).success_count
        = 0 ∧
    (runBatch cfg send_mode email_subject email_template dateAt transport leads session0).results.length
        = leads.length ∧
    (∀ r ∈ (runBatch cfg send_mode email_subject email_template dateAt transport leads session0).results,
      r.succeeded = false ∧ r.message = "Daily email limit reached") := by
  rw [runBatch, sendLoop_quota_exhausted cfg send_mode email_subject email_template
    dateAt transport leads 0 _ (by intro j hj; simpa using hdate j hj) hq]
  refine ⟨rfl, rfl, by simp, ?_⟩
  intro r hr
  simp only [List.nil_append, List.mem_map] at hr
  obtain ⟨l, _, rfl⟩ := hr
  exact ⟨rfl, rfl⟩

/-- C1 witness at a concrete input. -/
theorem quota_exhausted_batch_sends_nothing_witness :
    (∀ j, j < [leadJane].length → (fun _ => 10) j = (SessionSt.mk 2 10 2).last_email_date) ∧
    (SessionSt.mk 2 10 2).email_sent_today ≥ (SessionSt.mk 2 10 2).email_limit ∧
    ((runBatch cfgX "Send Now" "S" "B" (fun _ => 10) (fun _ => Except.ok ())
        [leadJane] (SessionSt.mk 2 10 2)).attempts = [] ∧
     (runBatch cfgX "Send Now" "S" "B" (fun _ => 10) (fun _ => Except.ok ())
        [leadJane] (SessionSt.mk 2 10 2)).success_count = 0 ∧
     (runBatch cfgX "Send Now" "S" "B" (fun _ => 10) (fun _ => Except.ok ())
        [leadJane] (SessionSt.mk 2 10 2)).results.length = [leadJane].length ∧
     (∀ r ∈ (runBatch cfgX "Send Now" "S" "B" (fun _ => 10) (fun _ => Except.ok ())
        [leadJane] (SessionSt.mk 2 10 2)).results,
        r.succeeded = false ∧ r.message = "Daily email limit reached")) :=
  ⟨by decide, by decide,
   quota_exhausted_batch_sends_nothing cfgX "Send Now" "S" "B" (fun _ => 10)
     (fun _ => Except.ok ()) [leadJane] (SessionSt.mk 2 10 2) (by decide) (by decide)⟩

theorem okCount_le (transport : Nat → Except String Unit) :
    ∀ (n i : Nat), okCount transport i n ≤ n := by
  intro n
  induction n with
  | zero => intro i; exact Nat.le_refl _
  | succ n ih =>
    intro i
    rw [okCount]
    have := ih (i + 1)
    split <;> omega

/-- When the date does not advance and the starting counter leaves room for
every lead, every loop iteration reaches the transport: the stored date and
limit are unchanged, the counter grows by the number of exception-free
outcomes, successes and failures are tallied accordingly, one message per
lead is handed to the transport, and the outcome recorded for iteration j
mirrors transport (i + j). -/
theorem sendLoop_ample_quota (cfg : SmtpConfig)
    (send_mode email_subject email_template : String)
    (dateAt : Nat → Nat) (transport : Nat → Except String Unit) :
    ∀ (leads : List Lead) (i : Nat) (st : BatchSt),
      (∀ j, j < leads.length → dateAt (i + j) = st.session.last_email_date) →
      st.session.email_sent_today + leads.length ≤ st.session.email_limit →
      (sendLoop cfg send_mode email_subject email_template dateAt transport i leads st).session.last_email_date
          = st.session.last_email_date ∧
      (sendLoop cfg send_mode email_subject email_template dateAt transport i leads st).session.email_limit
          = st.session.email_limit ∧
      (sendLoop cfg send_mode email_subject email_template dateAt transport i leads st).session.email_sent_today
          = st.session.email_sent_today + okCount transport i leads.length ∧
      (sendLoop cfg send_mode email_subject email_template dateAt transport i leads st).success_count
          = st.success_count + okCount transport i leads.length ∧
      (sendLoop cfg send_mode email_subject email_template dateAt transport i leads st).failure_count
          = st.failure_count + (leads.length - okCount transport i leads.length) ∧
      (sendLoop cfg send_mode email_subject email_template dateAt transport i leads st).attempts
          = st.attempts ++ leads.map (attemptOf cfg send_mode email_subject email_template) ∧
      ∃ suffix : List SendResult,
        (sendLoop cfg send_mode email_subject email_template dateAt transport i leads st).results
            = st.results ++ suffix ∧
        suffix.length = leads.length ∧
        (∀ j, j < leads.length →
          suffix[j]?.map (fun r => r.succeeded) = some (exOk (transport (i + j))) ∧
          suffix[j]?.map (fun r => r.recipient) = leads[j]?.map (recipientOf cfg send_mode)) := by
  intro leads
  induction leads with
  | nil =>
    intro i st _ _
    refine ⟨rfl, rfl, by simp [sendLoop, okCount], by simp [sendLoop, okCount],
      by simp [sendLoop, okCount], by simp [sendLoop], [], by simp [sendLoop], rfl, ?_⟩
    intro j hj
    exact absurd hj (by simp)
  | cons lead rest ih =>
    intro i st hdate hq
    have hd0 : dateAt i = st.session.last_email_date := by
      simpa using hdate 0 (by simp)
    have hroll : rolloverQuota (dateAt i) st.session = st.session :=
      rolloverQuota_of_not_later _ _ (by rw [hd0]; exact Nat.lt_irrefl _)
    have hlt : ¬ (rolloverQuota (dateAt i) st.session).email_sent_today ≥
        (rolloverQuota (dateAt i) st.session).email_limit := by
      rw [hroll]
      simp only [List.length_cons] at hq
      omega
    cases htr : transport i with
    | ok u =>
      cases u
      have hout : send_email (recipientOf cfg send_mode lead)
          (subjectOf send_mode email_subject lead)
          (personalize_template email_template lead.row) cfg
          (dateAt i) (transport i) st.session =
          ((true, "Email sent to " ++ recipientOf cfg send_mode lead ++ ". ("
              ++ toString (st.session.email_sent_today + 1)
              ++ "/" ++ toString st.session.email_limit ++ " sent today)"),
            { st.session with email_sent_today := st.session.email_sent_today + 1 },
            some ⟨recipientOf cfg send_mode lead, cfg.email,
              subjectOf send_mode email_subject lead,
              personalize_template email_template lead.row⟩) := by
        rw [htr, send_email_transport_ok _ _ _ _ _ _ hlt, hroll]
      have hstep : sendLoop cfg send_mode email_subject email_template dateAt transport
          i (lead :: rest) st
          = sendLoop cfg send_mode email_subject email_template dateAt transport (i + 1) rest
            { success_count := st.success_count + 1,
              failure_count := st.failure_count,
              session := { st.session with
                email_sent_today := st.session.email_sent_today + 1 },
              results := st.results ++
                [⟨recipientOf cfg send_mode lead, true,
                  "Email sent to " ++ recipientOf cfg send_mode lead ++ ". ("
                    ++ toString (st.session.email_sent_today + 1)
                    ++ "/" ++ toString st.session.email_limit ++ " sent today)"⟩],
              attempts := st.attempts ++
                [⟨recipientOf cfg send_mode lead, cfg.email,
                  subjectOf send_mode email_subject lead,
                  personalize_template email_template lead.row⟩] } := by
        rw [sendLoop]
        simp only [hout, if_true, eq_self_iff_true, Option.toList_some]
      have hdate' : ∀ j, j < rest.length → dateAt (i + 1 + j) =
          ({ st.session with email_sent_today := st.session.email_sent_today + 1 }
            : SessionSt).last_email_date := by
        intro j hj
        have h1 : i + 1 + j = i + (j + 1) := by omega
        rw [h1]
        simpa using hdate (j + 1) (by simpa using Nat.succ_lt_succ hj)
      have hq' : ({ st.session with
            email_sent_today := st.session.email_sent_today + 1 } : SessionSt).email_sent_today
          + rest.length ≤
          ({ st.session with
            email_sent_today := st.session.email_sent_today + 1 } : SessionSt).email_limit := by
        show st.session.email_sent_today + 1 + rest.length ≤ st.session.email_limit
        simp only [List.length_cons] at hq
        omega
      obtain ⟨ih1, ih2, ih3, ih4, ih5, ih6, suffix, ihr1, ihr2, ihr3⟩ :=
        ih (i + 1)
          { success_count := st.success_count + 1,
            failure_count := st.failure_count,
            session := { st.session with
              email_sent_today := st.session.email_sent_today + 1 },
            results := st.results ++
              [⟨recipientOf cfg send_mode lead, true,
                "Email sent to " ++ recipientOf cfg send_mode lead ++ ". ("
                  ++ toString (st.session.email_sent_today + 1)
                  ++ "/" ++ toString st.session.email_limit ++ " sent today)"⟩],
            attempts := st.attempts ++
              [⟨recipientOf cfg send_mode lead, cfg.email,
                subjectOf send_mode email_subject lead,
                personalize_template email_template lead.row⟩] }
          hdate' hq'
      have hok : okCount transport i (lead :: rest).length
          = 1 + okCount transport (i + 1) rest.length := by
        simp [okCount, htr, exOk]
      refine ⟨?_, ?_, ?_, ?_, ?_, ?_,
        ⟨recipientOf cfg send_mode lead, true,
          "Email sent to " ++ recipientOf cfg send_mode lead ++ ". ("
            ++ toString (st.session.email_sent_today + 1)
            ++ "/" ++ toString st.session.email_limit ++ " sent today)"⟩ :: suffix,
        ?_, ?_, ?_⟩
      · rw [hstep, ih1]
      · rw [hstep, ih2]
      · rw [hstep, ih3, hok]
        simp only []
        omega
      · rw [hstep, ih4, hok]
        simp only []
        omega
      · rw [hstep, ih5, hok]
        have := okCount_le transport rest.length (i + 1)
        simp only [List.length_cons]
        omega
      · rw [hstep, ih6]
        simp [attemptOf, List.append_assoc]
      · rw [hstep, ihr1]
        simp [List.append_assoc]
      · simp [ihr2]
      · intro j hj
        cases j with
        | zero =>
          constructor
          · simp [htr, exOk]
          · simp [List.getElem?_cons_zero]
        | succ j =>
          have hj' : j < rest.length := by simpa using Nat.lt_of_succ_lt_succ hj
          have h1 : i + (j + 1) = i + 1 + j := by omega
          constructor
          · rw [List.getElem?_cons_succ, h1]
            exact (ihr3 j hj').1
          · rw [List.getElem?_cons_succ, List.getElem?_cons_succ]
            exact (ihr3 j hj').2
    | error e =>
      have hout : send_email (recipientOf cfg send_mode lead)
          (subjectOf send_mode email_subject lead)
          (personalize_template email_template lead.row) cfg
          (dateAt i) (transport i) st.session =
          ((false, "Failed to send email: " ++ e), st.session,
            some ⟨recipientOf cfg send_mode lead, cfg.email,
              subjectOf send_mode email_subject lead,
              personalize_template email_template lead.row⟩) := by
        rw [htr, send_email_transport_error _ _ _ _ _ _ _ hlt, hroll]
      have hstep : sendLoop cfg send_mode email_subject email_template dateAt transport
          i (lead :: rest) st
          = sendLoop cfg send_mode email_subject email_template dateAt transport (i + 1) rest
            { success_count := st.success_count,
              failure_count := st.failure_count + 1,
              session := st.session,
              results := st.results ++
                [⟨recipientOf cfg send_mode lead, false, "Failed to send email: " ++ e⟩],
              attempts := st.attempts ++
                [⟨recipientOf cfg send_mode lead, cfg.email,
                  subjectOf send_mode email_subject lead,
                  personalize_template email_template lead.row⟩] } := by
        rw [sendLoop]
        simp only [hout, Bool.false_eq_true, if_false, Option.toList_some]
      have hdate' : ∀ j, j < rest.length → dateAt (i + 1 + j) =
          st.session.last_email_date := by
        intro j hj
        have h1 : i + 1 + j = i + (j + 1) := by omega
        rw [h1]
        simpa using hdate (j + 1) (by simpa using Nat.succ_lt_succ hj)
      have hq' : st.session.email_sent_today + rest.length ≤ st.session.email_limit := by
        simp only [List.length_cons] at hq
        omega
      obtain ⟨ih1, ih2, ih3, ih4, ih5, ih6, suffix, ihr1, ihr2, ihr3⟩ :=
        ih (i + 1)
          { success_count := st.success_count,
            failure_count := st.failure_count + 1,
            session := st.session,
            results := st.results ++
              [⟨recipientOf cfg send_mode lead, false, "Failed to send email: " ++ e⟩],
            attempts := st.attempts ++
              [⟨recipientOf cfg send_mode lead, cfg.email,
                subjectOf send_mode email_subject lead,
                personalize_template email_template lead.row⟩] }
          hdate' hq'
      have hok : okCount transport i (lead :: rest).length
          = okCount transport (i + 1) rest.length := by
        simp [okCount, htr, exOk]
      refine ⟨?_, ?_, ?_, ?_, ?_, ?_,
        ⟨recipientOf cfg send_mode lead, false, "Failed to send email: " ++ e⟩ :: suffix,
        ?_, ?_, ?_⟩
      · rw [hstep, ih1]
      · rw [hstep, ih2]
      · rw [hstep, ih3, hok]
      · rw [hstep, ih4, hok]
      · rw [hstep, ih5, hok]
        have := okCount_le transport rest.length (i + 1)
        simp only [List.length_cons]
        omega
      · rw [hstep, ih6]
        simp [attemptOf, List.append_assoc]
      · rw [hstep, ihr1]
        simp [List.append_assoc]
      · simp [ihr2]
      · intro j hj
        cases j with
        | zero =>
          constructor
          · simp [htr, exOk]
          · simp [List.getElem?_cons_zero]
        | succ j =>
          have hj' : j < rest.length := by simpa using Nat.lt_of_succ_lt_succ hj
          have h1 : i + (j + 1) = i + 1 + j := by omega
          constructor
          · rw [List.getElem?_cons_succ, h1]
            exact (ihr3 j hj').1
          · rw [List.getElem?_cons_succ, List.getElem?_cons_succ]
            exact (ihr3 j hj').2

theorem okCount_eq_length (transport : Nat → Except String Unit) :
    ∀ (n i : Nat), (∀ j, j < n → exOk (transport (i + j)) = true) →
      okCount transport i n = n := by
  intro n
  induction n with
  | zero => intro i _; rfl
  | succ n ih =>
    intro i h
    have h0 : exOk (transport i) = true := by simpa using h 0 (by omega)
    have hrest : okCount transport (i + 1) n = n := by
      refine ih (i + 1) (fun j hj => ?_)
      have := h (j + 1) (by omega)
      have h1 : i + (j + 1) = i + 1 + j := by omega
      rw [h1] at this
      exact this
    rw [okCount, h0, hrest]
    simp [Nat.add_comm]

/-- C2: for a batch whose transport raises nothing on any call, with room
for the whole batch under the daily limit at the start and an unchanged
date, the summary reports one success per lead and zero failures, and the
quota counter grows by exactly the number of leads. -/
theorem all_ok_batch_counts (cfg : SmtpConfig)
    (send_mode email_subject email_template : String)
    (dateAt : Nat → Nat) (transport : Nat → Except String Unit)
    (leads : List Lead) (session0 : SessionSt)
    (hdate : ∀ j, j < leads.length → dateAt j = session0.last_email_date)
    (htr : ∀ j, j < leads.length → exOk (transport j) = true)
    (hq : session0.email_sent_today + leads.length ≤ session0.email_limit) :
    (runBatch cfg send_mode email_subject email_template dateAt transport leads session0).success_count
        = leads.length ∧
    (runBatch cfg send_mode email_subject email_template dateAt transport leads session0).failure_count
        = 0 ∧
    (runBatch cfg send_mode email_subject email_template dateAt transport leads session0).session.email_sent_today
        = session0.email_sent_today + leads.length := by
  obtain ⟨_, _, h3, h4, h5, _, _, _, _, _⟩ :=
    sendLoop_ample_quota cfg send_mode email_subject email_template dateAt transport
      leads 0
      { success_count := 0, failure_count := 0, session := session0,
        results := [], attempts := [] }
      (by intro j hj; simpa using hdate j hj) hq
  have hcount : okCount transport 0 leads.length = leads.length :=
    okCount_eq_length transport leads.length 0
      (fun j hj => by simpa using htr j hj)
  rw [runBatch]
  exact ⟨by rw [h4, hcount]; simp, by rw [h5, hcount]; simp, by rw [h3, hcount]⟩

/-- C2 witness at a concrete input. -/
theorem all_ok_batch_counts_witness :
    (∀ j, j < [leadJane, leadBob].length → (fun _ => 10) j = (SessionSt.mk 1 10 5).last_email_date) ∧
    (∀ j, j < [leadJane, leadBob].length → exOk ((fun _ => Except.ok ()) j) = true) ∧
    (SessionSt.mk 1 10 5).email_sent_today + [leadJane, leadBob].length ≤ (SessionSt.mk 1 10 5).email_limit ∧
    ((runBatch cfgX "Send Now" "S" "B" (fun _ => 10) (fun _ => Except.ok ())
        [leadJane, leadBob] (SessionSt.mk 1 10 5)).success_count = [leadJane, leadBob].length ∧
     (runBatch cfgX "Send Now" "S" "B" (fun _ => 10) (fun _ => Except.ok ())
        [leadJane, leadBob] (SessionSt.mk 1 10 5)).failure_count = 0 ∧
     (runBatch cfgX "Send Now" "S" "B" (fun _ => 10) (fun _ => Except.ok ())
        [leadJane, leadBob] (SessionSt.mk 1 10 5)).session.email_sent_today
        = (SessionSt.mk 1 10 5).email_sent_today + [leadJane, leadBob].length) :=
  ⟨by decide, by decide, by decide,
   all_ok_batch_counts cfgX "Send Now" "S" "B" (fun _ => 10) (fun _ => Except.ok ())
     [leadJane, leadBob] (SessionSt.mk 1 10 5) (by decide) (by decide) (by decide)⟩

/-- C5: a transport failure for one lead never aborts the batch: when the
transport raises for iteration k only, with room for the whole batch and
an unchanged date, every lead is still attempted and recorded, the record
at index k is a failure, and every other record is a success. -/
theorem single_failure_does_not_abort (cfg : SmtpConfig)
    (send_mode email_subject email_template : String)
    (dateAt : Nat → Nat) (transport : Nat → Except String Unit)
    (leads : List Lead) (session0 : SessionSt) (k : Nat)
    (hk : k < leads.length)
    (hdate : ∀ j, j < leads.length → dateAt j = session0.last_email_date)
    (htrk : exOk (transport k) = false)
    (htro : ∀ j, j < leads.length → j ≠ k → exOk (transport j) = true)
    (hq : session0.email_sent_today + leads.length ≤ session0.email_limit) :
    (runBatch cfg send_mode email_subject email_template dateAt transport leads session0).results.length
        = leads.length ∧
    (runBatch cfg send_mode email_subject email_template dateAt transport leads session0).attempts.length
        = leads.length ∧
    (runBatch cfg send_mode email_subject email_template dateAt transport leads session0).results[k]?.map
        (fun r => r.succeeded) = some false ∧
    (∀ j, j < leads.length → j ≠ k →
      (runBatch cfg send_mode email_subject email_template dateAt transport leads session0).results[j]?.map
        (fun r => r.succeeded) = some true) := by
  obtain ⟨_, _, _, _, _, h6, suffix, hr1, hr2, hr3⟩ :=
    sendLoop_ample_quota cfg send_mode email_subject email_template dateAt transport
      leads 0
      { success_count := 0, failure_count := 0, session := session0,
        results := [], attempts := [] }
      (by intro j hj; simpa using hdate j hj) hq
  rw [runBatch] at *
  have hres : (sendLoop cfg send_mode email_subject email_template dateAt transport 0 leads
      { success_count := 0, failure_count := 0, session := session0,
        results := [], attempts := [] }).results = suffix := by
    simpa using hr1
  refine ⟨by rw [hres, hr2], by rw [h6]; simp, ?_, ?_⟩
  · rw [hres]
    have := (hr3 k hk).1
    simpa [htrk] using this
  · intro j hj hne
    rw [hres]
    have := (hr3 j hj).1
    simpa [htro j hj hne] using this

/-- C5 witness at a concrete input. -/
theorem single_failure_does_not_abort_witness :
    1 < [leadJane, leadBob, leadAmy].length ∧
    (∀ j, j < [leadJane, leadBob, leadAmy].length →
      (fun _ => 10) j = (SessionSt.mk 0 10 5).last_email_date) ∧
    exOk ((fun j => if j = 1 then Except.error "boom" else Except.ok ()) 1) = false ∧
    (∀ j, j < [leadJane, leadBob, leadAmy].length → j ≠ 1 →
      exOk ((fun j => if j = 1 then Except.error "boom" else Except.ok ()) j) = true) ∧
    (SessionSt.mk 0 10 5).email_sent_today + [leadJane, leadBob, leadAmy].length
        ≤ (SessionSt.mk 0 10 5).email_limit ∧
    ((runBatch cfgX "Send Now" "S" "B" (fun _ => 10)
        (fun j => if j = 1 then Except.error "boom" else Except.ok ())
        [leadJane, leadBob, leadAmy] (SessionSt.mk 0 10 5)).results.length
        = [leadJane, leadBob, leadAmy].length ∧
     (runBatch cfgX "Send Now" "S" "B" (fun _ => 10)
        (fun j => if j = 1 then Except.error "boom" else Except.ok ())
        [leadJane, leadBob, leadAmy] (SessionSt.mk 0 10 5)).attempts.length
        = [leadJane, leadBob, leadAmy].length ∧
     (runBatch cfgX "Send Now" "S" "B" (fun _ => 10)
        (fun j => if j = 1 then Except.error "boom" else Except.ok ())
        [leadJane, leadBob, leadAmy] (SessionSt.mk 0 10 5)).results[1]?.map
        (fun r => r.succeeded) = some false ∧
     (∀ j, j < [leadJane, leadBob, leadAmy].length → j ≠ 1 →
       (runBatch cfgX "Send Now" "S" "B" (fun _ => 10)
          (fun j => if j = 1 then Except.error "boom" else Except.ok ())
          [leadJane, leadBob, leadAmy] (SessionSt.mk 0 10 5)).results[j]?.map
          (fun r => r.succeeded) = some true)) :=
  ⟨by decide, by decide, by decide, by decide, by decide,
   single_failure_does_not_abort cfgX "Send Now" "S" "B" (fun _ => 10)
     (fun j => if j = 1 then Except.error "boom" else Except.ok ())
     [leadJane, leadBob, leadAmy] (SessionSt.mk 0 10 5) 1
     (by decide) (by decide) (by decide) (by decide) (by decide)⟩

theorem containsSub_nil_pat : ∀ s : List Char, containsSub s [] = true := by
  intro s
  cases s with
  | nil => rfl
  | cons c cs => simp [containsSub, List.isPrefixOf]

theorem containsSub_self_append (pat r : List Char) : containsSub (pat ++ r) pat = true := by
  cases pat with
  | nil => exact containsSub_nil_pat r
  | cons p ps =>
    show containsSub (p :: (ps ++ r)) (p :: ps) = true
    rw [containsSub]
    rw [show (p :: (ps ++ r)) = (p :: ps) ++ r from rfl, isPrefixOf_append]
    simp

theorem containsSub_append_left (pat s : List Char) (h : containsSub s pat = true) :
    ∀ l : List Char, containsSub (l ++ s) pat = true := by
  intro l
  induction l with
  | nil => exact h
  | cons c cs ih =>
    show containsSub (c :: (cs ++ s)) pat = true
    rw [containsSub, ih]
    simp

/-- C6: in test mode, every message handed to the transport (with quota
room and an unchanged date, one per lead) is addressed to the sender's own
address regardless of the lead's email field, and its subject is the
personalized subject wrapped with the TEST marker at the front and the
real intended recipient's address appended, so the subject contains the
lead's real email address. -/
theorem test_mode_redirects_recipient (cfg : SmtpConfig)
    (email_subject email_template : String)
    (dateAt : Nat → Nat) (transport : Nat → Except String Unit)
    (leads : List Lead) (session0 : SessionSt)
    (hdate : ∀ j, j < leads.length → dateAt j = session0.last_email_date)
    (hq : session0.email_sent_today + leads.length ≤ session0.email_limit) :
    (runBatch cfg testModeLabel email_subject email_template dateAt transport leads session0).attempts.length
        = leads.length ∧
    (∀ j, j < leads.length →
      (runBatch cfg testModeLabel email_subject email_template dateAt transport leads session0).attempts[j]?.map
          (fun m => m.to_addr) = some cfg.email ∧
      (runBatch cfg testModeLabel email_subject email_template dateAt transport leads session0).attempts[j]?.map
          (fun m => m.subject) =
        leads[j]?.map (fun l => "[TEST] " ++ personalize_template email_subject l.row
          ++ " (to: " ++ l.email ++ ")") ∧
      (runBatch cfg testModeLabel email_subject email_template dateAt transport leads session0).attempts[j]?.bind
          (fun m => leads[j]?.map (fun l => containsSub m.subject.data l.email.data)) =
        some true) := by
  obtain ⟨_, _, _, _, _, h6, _, _, _, _⟩ :=
    sendLoop_ample_quota cfg testModeLabel email_subject email_template dateAt transport
      leads 0
      { success_count := 0, failure_count := 0, session := session0,
        results := [], attempts := [] }
      (by intro j hj; simpa using hdate j hj) hq
  rw [runBatch] at *
  have hatt : (sendLoop cfg testModeLabel email_subject email_template dateAt transport 0 leads
      { success_count := 0, failure_count := 0, session := session0,
        results := [], attempts := [] }).attempts =
      leads.map (attemptOf cfg testModeLabel email_subject email_template) := by
    simpa using h6
  have hsubj : ∀ l : Lead, subjectOf testModeLabel email_subject l =
      "[TEST] " ++ personalize_template email_subject l.row ++ " (to: " ++ l.email ++ ")" := by
    intro l
    rw [subjectOf]
    simp
  have hrecip : ∀ l : Lead, recipientOf cfg testModeLabel l = cfg.email := by
    intro l
    rw [recipientOf, if_pos rfl]
  refine ⟨by rw [hatt]; simp, ?_⟩
  intro j hj
  have hsome : ∃ l : Lead, leads[j]? = some l := by
    rw [List.getElem?_eq_getElem hj]
    exact ⟨leads[j], rfl⟩
  obtain ⟨l, hl⟩ := hsome
  have hmem : (leads.map (attemptOf cfg testModeLabel email_subject email_template))[j]? =
      some (attemptOf cfg testModeLabel email_subject email_template l) := by
    rw [List.getElem?_map, hl]
    rfl
  refine ⟨?_, ?_, ?_⟩
  · rw [hatt, hmem]
    simp [attemptOf, hrecip l]
  · rw [hatt, hmem, hl]
    simp [attemptOf, hsubj l]
  · rw [hatt, hmem, hl]
    have hdata : (attemptOf cfg testModeLabel email_subject email_template l).subject.data =
        ("[TEST] " ++ personalize_template email_subject l.row ++ " (to: ").data
          ++ (l.email.data ++ (")" : String).data) := by
      simp [attemptOf, hsubj l, String.data_append, List.append_assoc]
    have hc : containsSub (attemptOf cfg testModeLabel email_subject email_template l).subject.data
        l.email.data = true := by
      rw [hdata]
      exact containsSub_append_left _ _ (containsSub_self_append _ _) _
    exact congrArg some hc

/-- C6 witness at a concrete input. -/
theorem test_mode_redirects_recipient_witness :
    (∀ j, j < [leadJane, leadBob].length → (fun _ => 10) j = (SessionSt.mk 0 10 5).last_email_date) ∧
    (SessionSt.mk 0 10 5).email_sent_today + [leadJane, leadBob].length
        ≤ (SessionSt.mk 0 10 5).email_limit ∧
    ((runBatch cfgX testModeLabel "S" "B" (fun _ => 10) (fun _ => Except.ok ())
        [leadJane, leadBob] (SessionSt.mk 0 10 5)).attempts.length = [leadJane, leadBob].length ∧
     (∀ j, j < [leadJane, leadBob].length →
       (runBatch cfgX testModeLabel "S" "B" (fun _ => 10) (fun _ => Except.ok ())
          [leadJane, leadBob] (SessionSt.mk 0 10 5)).attempts[j]?.map
           (fun m => m.to_addr) = some cfgX.email ∧
       (runBatch cfgX testModeLabel "S" "B" (fun _ => 10) (fun _ => Except.ok ())
          [leadJane, leadBob] (SessionSt.mk 0 10 5)).attempts[j]?.map
           (fun m => m.subject) =
         [leadJane, leadBob][j]?.map (fun l => "[TEST] " ++ personalize_template "S" l.row
           ++ " (to: " ++ l.email ++ ")") ∧
       (runBatch cfgX testModeLabel "S" "B" (fun _ => 10) (fun _ => Except.ok ())
          [leadJane, leadBob] (SessionSt.mk 0 10 5)).attempts[j]?.bind
           (fun m => [leadJane, leadBob][j]?.map (fun l => containsSub m.subject.data l.email.data)) =
         some true)) :=
  ⟨by decide, by decide,
   test_mode_redirects_recipient cfgX "S" "B" (fun _ => 10) (fun _ => Except.ok ())
     [leadJane, leadBob] (SessionSt.mk 0 10 5) (by decide) (by decide)⟩

/-- C7: for every template string and every lead record,
personalize_template replaces, field by field in record order, every
literal occurrence of the field's brace-delimited placeholder with the
field's string value (the PersonalizedBy relation); in particular the
firstName/company example renders to the expected string. -/
theorem personalize_template_replaces_every_occurrence :
    (∀ (template : String) (lead_data : List (String × String)),
      PersonalizedBy lead_data template (personalize_template template lead_data)) ∧
    personalize_template "\x7b\x7bfirstName\x7d\x7d at \x7b\x7bcompany\x7d\x7d"
      [("firstName", "Jane"), ("company", "Acme")] = "Jane at Acme" :=
  ⟨fun template lead_data => personalizedBy_personalize_template lead_data template,
   by decide⟩

/-- C8: placeholders whose name matches no field of the lead are left
unchanged: when no placeholder of a field present in the lead occurs in
the template - in particular when the template contains only unmatched
placeholders - personalize_template returns the template entirely
unchanged, raising no error. -/
theorem unmatched_placeholders_passthrough (template : String)
    (lead_data : List (String × String))
    (h : ∀ kv ∈ lead_data,
      containsSub template.data ("\x7b\x7b" ++ kv.1 ++ "\x7d\x7d").data = false) :
    personalize_template template lead_data = template :=
  personalize_template_of_no_match lead_data template h

/-- C8 witness at a concrete input. -/
theorem unmatched_placeholders_passthrough_witness :
    (∀ kv ∈ [("firstName", "Jane"), ("company", "Acme")],
      containsSub ("\x7b\x7bnope\x7d\x7d hi" : String).data
        ("\x7b\x7b" ++ (kv : String × String).1 ++ "\x7d\x7d").data = false) ∧
    personalize_template "\x7b\x7bnope\x7d\x7d hi" [("firstName", "Jane"), ("company", "Acme")]
      = "\x7b\x7bnope\x7d\x7d hi" :=
  ⟨by decide, unmatched_placeholders_passthrough _ _ (by decide)⟩

end LeadGen
